import Mathlib

/-!
Verification of the cupid-nordcloseout email pipeline (`src/main.py`).

The development shallowly embeds the pure core of the program:
the record extractor `process_email_text`, the CSV renderers
(`write_to_csv` and the inline email-body CSV), the message classifier
`is_reply`, the subject parser `extract_filename`, the body decoder
`get_email_body`, and the per-message coordinator logic of `fetch_emails`.
Strings are modelled as Lean `String`/`List Char`; Python's exceptions are
modelled with `Except`/`Option`; the fallible I/O steps of the coordinator
are modelled with explicit success oracles and an effect trace.
-/

namespace NordCloseout

/-- Python's `\s` character class, restricted to the ASCII whitespace
characters (the inputs of interest are ASCII). -/
def pyIsSpace (c : Char) : Bool :=
  c = ' ' || c = '\t' || c = '\n' || c = '\r' || c = '\x0b' || c = '\x0c'

/-- Python's `\d` character class, restricted to ASCII decimal digits. -/
def pyIsDigit (c : Char) : Bool :=
  '0' ≤ c && c ≤ '9'

/-- Python `str.strip()`: remove leading and trailing whitespace. -/
def pyStripL (cs : List Char) : List Char :=
  ((cs.dropWhile pyIsSpace).reverse.dropWhile pyIsSpace).reverse

/-- Python `str.split('\n')`: split on every newline, keeping empty pieces;
the empty string yields `[[]]`. -/
def splitOnNl : List Char → List (List Char)
  | [] => [[]]
  | c :: cs =>
    if c = '\n' then [] :: splitOnNl cs
    else
      match splitOnNl cs with
      | [] => [[c]]
      | l :: ls => (c :: l) :: ls

/-- Take exactly `n` characters from the front, all of which must satisfy
`pyIsDigit`; return the digits and the remainder (regex atom `\d{n}`). -/
def takeExactDigits : Nat → List Char → Option (List Char × List Char)
  | 0, cs => some ([], cs)
  | _ + 1, [] => none
  | n + 1, c :: cs =>
    if pyIsDigit c then
      match takeExactDigits n cs with
      | some (ds, rest) => some (c :: ds, rest)
      | none => none
    else none

/-- Take a maximal nonempty run of whitespace from the front
(regex atom `\s+`). -/
def takeSpaces1 (cs : List Char) : Option (List Char × List Char) :=
  match cs.takeWhile pyIsSpace with
  | [] => none
  | w => some (w, cs.dropWhile pyIsSpace)

/-- The anchored line pattern of `process_email_text`
(`re.search(r'^\s*(\d\s+\d{5}\s+\d{5}\s+\d)\s+P', line)`), which is
deterministic because digits and whitespace are disjoint.  Returns the
text of capture group 1 on success. -/
def matchReportLine (line : List Char) : Option (List Char) := do
  let (d1, r1) ← takeExactDigits 1 (line.dropWhile pyIsSpace)
  let (w1, r2) ← takeSpaces1 r1
  let (d2, r3) ← takeExactDigits 5 r2
  let (w2, r4) ← takeSpaces1 r3
  let (d3, r5) ← takeExactDigits 5 r4
  let (w3, r6) ← takeSpaces1 r5
  let (d4, r7) ← takeExactDigits 1 r6
  let (_, r8) ← takeSpaces1 r7
  match r8 with
  | c :: _ => if c = 'P' then some (d1 ++ w1 ++ d2 ++ w2 ++ d3 ++ w3 ++ d4) else none
  | [] => none

/-- One line's contribution: the matched group with `.replace(' ', '')`
applied (only the space character is removed, not other whitespace). -/
def extractLine (line : List Char) : Option (List Char) :=
  (matchReportLine line).map (List.filter (fun c => c ≠ ' '))

/-- Core of `process_email_text`: strip the text, split into lines, and
collect each matching line's cleaned group. -/
def extractAll (text : List Char) : List (List Char) :=
  (splitOnNl (pyStripL text)).filterMap extractLine

/-- `process_email_text` from `src/main.py` (lines 138-153). -/
def process_email_text (text : String) : List String :=
  (extractAll text.toList).map List.asString

/-- Python-level runtime errors that the embedded functions can raise. -/
inductive PyError where
  /-- `AttributeError`: calling a method on `None`
  (e.g. `None.startswith(...)`, `None.decode()`). -/
  | attributeError
  /-- `OSError`/`IOError` raised by a failing file write. -/
  | ioError
  deriving DecidableEq, Repr

deriving instance DecidableEq for Except

/-- One MIME part of a multipart message, as seen by `get_email_body`:
its content type, the result of `str(part.get('Content-Disposition'))`
(the string `"None"` when the header is absent), and the decoded payload
(`none` models `get_payload(decode=True)` returning `None`). -/
structure EmailPart where
  contentType : String
  contentDisposition : String
  payload : Option String
  deriving DecidableEq, Repr

/-- An inbound email message as the program reads it: the `subject`,
`In-Reply-To` and `References` headers (absent headers are `none`), the
multipart flag, the parts in `msg.walk()` order (used only when
multipart), and the whole-message decoded payload (used only when not
multipart; for a multipart message `get_payload(decode=True)` is `None`
in Python). -/
structure EmailMessage where
  subject : Option String
  inReplyTo : Option String
  references : Option String
  multipart : Bool
  parts : List EmailPart
  payload : Option String
  deriving DecidableEq, Repr

/-- Python's `in` test on strings: `needle` occurs as a contiguous
substring of the haystack. -/
def containsSub (needle : List Char) : List Char → Bool
  | [] => needle.isEmpty
  | c :: rest => needle.isPrefixOf (c :: rest) || containsSub needle rest

/-- A part is acceptable for the body when `"attachment"` does not occur in
its content disposition and its content type is `text/plain` or
`text/html`. -/
def suitablePart (p : EmailPart) : Bool :=
  !(containsSub "attachment".toList p.contentDisposition.toList)
    && (p.contentType = "text/plain" || p.contentType = "text/html")

/-- `payload.decode()`: succeeds on bytes, raises `AttributeError` when the
payload is `None`. -/
def decodePayload : Option String → Except PyError String
  | some s => .ok s
  | none => .error .attributeError

/-- `get_email_body` from `src/main.py` (lines 95-109): for a multipart
message, return the first non-attachment `text/plain`/`text/html` part's
decoded payload; otherwise (including a multipart message with no such
part, where `get_payload(decode=True)` is `None`) decode the whole
message's payload. -/
def get_email_body (msg : EmailMessage) : Except PyError String :=
  let whole := if msg.multipart then none else msg.payload
  if msg.multipart then
    match msg.parts.find? suitablePart with
    | some p => decodePayload p.payload
    | none => decodePayload whole
  else decodePayload whole

/-- Python `str.startswith`, as a structural check on the char lists. -/
def pyStartsWith (s pre : String) : Bool :=
  pre.toList.isPrefixOf s.toList

/-- `is_reply` from `src/main.py` (lines 113-122): raises when the subject
header is absent (`None.startswith`), else `True` when the subject starts
with `Re:` or an `In-Reply-To` or `References` header is present. -/
def is_reply (msg : EmailMessage) : Except PyError Bool :=
  match msg.subject with
  | none => .error .attributeError
  | some s =>
    if pyStartsWith s "Re:" then .ok true
    else .ok (msg.inReplyTo.isSome || msg.references.isSome)

/-- Scan after a `[`: a maximal nonempty run of non-`]` characters that is
followed by `]` (the regex `([^\]]+)\]`, which is deterministic). -/
def bracketGroup (cs : List Char) : Option (List Char) :=
  match cs.dropWhile (fun c => c ≠ ']') with
  | ']' :: _ =>
    match cs.takeWhile (fun c => c ≠ ']') with
    | [] => none
    | run => some run
  | _ => none

/-- Leftmost-match scan of `re.search(r'\[([^\]]+)\]', subject)`: at each
position try to read `[`, a nonempty bracket-free run, and `]`. -/
def findBracket : List Char → Option (List Char)
  | [] => none
  | c :: rest =>
    if c = '[' then
      match bracketGroup rest with
      | some g => some g
      | none => findBracket rest
    else findBracket rest

/-- `extract_filename` from `src/main.py` (lines 126-134). -/
def extract_filename (subject : String) : Option String :=
  (findBracket subject.toList).map List.asString

/-- The file content written by `write_to_csv` (`src/main.py` lines
157-168): a header write followed by one write per item, modelled as a
fold over the growing file contents. -/
def write_to_csv_content (data : List String) : String :=
  data.foldl (fun acc item => acc ++ (item ++ "," ++ item ++ ",,0,discontinued,\n"))
    "SKU,UPC,EAN,QUANTITY_AVAILABLE,STATUS,\n"

/-- The `csv_data` string built inline in `fetch_emails` for the outbound
email body (`src/main.py` lines 214-216): note no trailing comma on the
header or the rows, unlike `write_to_csv`. -/
def email_csv_data (data : List String) : String :=
  data.foldl (fun acc item => acc ++ (item ++ "," ++ item ++ ",,0,discontinued\n"))
    "SKU,UPC,EAN,QUANTITY_AVAILABLE,STATUS\n"

/-- `unique_filename` (`src/main.py` line 220): `nordsvcp_<timestamp>.csv`. -/
def unique_filename (timestamp : String) : String :=
  "nordsvcp_" ++ timestamp ++ ".csv"

/-- The outbound notification subject (`src/main.py` line 225). -/
def outgoing_subject (filename : String) : String :=
  "DSVNord Closeout Approval: [" ++ filename ++ "]"

/-- The outbound notification body (`src/main.py` line 226). -/
def outgoing_body (filename csv : String) : String :=
  "Filename: " ++ filename ++ "\nhas been received.\nDoes this look correct?\n\n" ++ csv

/-- The externally visible actions of one message's processing, in order.
`sftpUpload` and `sendMail` record whether the underlying transport
succeeded; both functions catch their own errors in the source, so a
transport failure never raises into the coordinator. -/
inductive Effect where
  | sftpUpload (localFile remotePath : String) (ok : Bool)
  | fileWrite (filename content : String)
  | markSeen
  | sendMail (subject body : String) (ok : Bool)
  deriving DecidableEq, Repr

/-- The configuration values the coordinator reads from the environment. -/
structure Config where
  localFilePath : String
  remotePath : String
  deriving Repr

/-- Per-message body of the `fetch_emails` loop (`src/main.py` lines
188-227), with the fallible externals made explicit: `timestamp` is
`datetime.now()`, `writeOk` tells whether the `write_to_csv` file write
succeeds, and `sftpOk`/`sendOk` tell whether the transports succeed
(their failures are caught and printed inside `sftp_upload_file` and
`send_email`).  Returns the effect trace and the uncaught exception, if
any, that propagates to the `except` clause of `fetch_emails`. -/
def process_message (cfg : Config) (msg : EmailMessage) (timestamp : String)
    (writeOk sftpOk sendOk : Bool) : List Effect × Option PyError :=
  match is_reply msg with
  | .error e => ([], some e)
  | .ok true =>
    match extract_filename (msg.subject.getD "") with
    | some fn =>
      ([.sftpUpload (cfg.localFilePath ++ fn) cfg.remotePath sftpOk], none)
    | none => ([], none)
  | .ok false =>
    match get_email_body msg with
    | .error e => ([], some e)
    | .ok body =>
      let extracted := process_email_text body
      let fn := unique_filename timestamp
      if writeOk then
        ([.fileWrite fn (write_to_csv_content extracted),
          .markSeen,
          .sendMail (outgoing_subject fn)
            (outgoing_body fn (email_csv_data extracted)) sendOk], none)
      else ([], some .ioError)

/-- The batch loop of `fetch_emails`: messages are processed in order, and
the first uncaught exception aborts the rest of the batch (the whole loop
sits inside one `try`/`except`). -/
def fetch_emails_loop (cfg : Config) :
    List (EmailMessage × String × Bool × Bool × Bool) → List Effect × Option PyError
  | [] => ([], none)
  | (msg, ts, wOk, fOk, sOk) :: rest =>
    match process_message cfg msg ts wOk fOk sOk with
    | (effs, some e) => (effs, some e)
    | (effs, none) =>
      match fetch_emails_loop cfg rest with
      | (effs2, err) => (effs ++ effs2, err)

/-! ### Declarative specification of the line pattern -/

/-- Every character of the list is whitespace. -/
def AllSpace (w : List Char) : Prop := ∀ c ∈ w, pyIsSpace c = true

/-- Every character of the list is a decimal digit. -/
def AllDigit (d : List Char) : Prop := ∀ c ∈ d, pyIsDigit c = true

/-- Declarative reading of the line pattern: optional leading whitespace,
then digit groups of lengths 1, 5, 5, 1 separated by (nonempty)
whitespace, then whitespace and the literal `P`; `g` is the capture
group, i.e. the text from the first digit to the last. -/
def SpecGroup (line g : List Char) : Prop :=
  ∃ w0 d1 w1 d2 w2 d3 w3 d4 w4 rest,
    line = w0 ++ (d1 ++ (w1 ++ (d2 ++ (w2 ++ (d3 ++ (w3 ++ (d4 ++ (w4 ++ 'P' :: rest)))))))) ∧
    AllSpace w0 ∧
    d1.length = 1 ∧ AllDigit d1 ∧
    w1 ≠ [] ∧ AllSpace w1 ∧
    d2.length = 5 ∧ AllDigit d2 ∧
    w2 ≠ [] ∧ AllSpace w2 ∧
    d3.length = 5 ∧ AllDigit d3 ∧
    w3 ≠ [] ∧ AllSpace w3 ∧
    d4.length = 1 ∧ AllDigit d4 ∧
    w4 ≠ [] ∧ AllSpace w4 ∧
    g = d1 ++ (w1 ++ (d2 ++ (w2 ++ (d3 ++ (w3 ++ d4)))))

/-- Relation between the lines of a text and the extracted codes: matching
lines contribute their cleaned group in order, non-matching lines
contribute nothing. -/
inductive ExtractSpec : List (List Char) → List (List Char) → Prop where
  | nil : ExtractSpec [] []
  | matched {line g ls cs} : SpecGroup line g →
      ExtractSpec ls cs →
      ExtractSpec (line :: ls) (g.filter (fun c => c ≠ ' ') :: cs)
  | skipped {line ls cs} : (∀ g, ¬ SpecGroup line g) →
      ExtractSpec ls cs →
      ExtractSpec (line :: ls) cs

/-! ### Helper lemmas -/

theorem pyIsDigit_not_space {c : Char} (h : pyIsDigit c = true) : pyIsSpace c = false := by
  simp only [pyIsDigit, Bool.and_eq_true, decide_eq_true_eq] at h
  obtain ⟨h1, h2⟩ := h
  by_contra hs
  simp only [Bool.not_eq_false, pyIsSpace, Bool.or_eq_true, decide_eq_true_eq] at hs
  rcases hs with ((((rfl | rfl) | rfl) | rfl) | rfl) | rfl <;> exact absurd h1 (by decide)

theorem takeDrop_split {α : Type} {p : α → Bool} {w : List α} {c : α} {rest : List α}
    (hw : ∀ x ∈ w, p x = true) (hc : p c = false) :
    (w ++ c :: rest).takeWhile p = w ∧
      (w ++ c :: rest).dropWhile p = c :: rest := by
  induction w with
  | nil =>
    simp only [List.nil_append]
    exact ⟨List.takeWhile_cons_of_neg (by simp [hc]),
      List.dropWhile_cons_of_neg (by simp [hc])⟩
  | cons a w ih =>
    have ha : p a = true := hw a (by simp)
    obtain ⟨iht, ihd⟩ := ih (fun x hx => hw x (by simp [hx]))
    simp only [List.cons_append]
    constructor
    · rw [List.takeWhile_cons_of_pos (by simp [ha]), iht]
    · rw [List.dropWhile_cons_of_pos (by simp [ha]), ihd]

theorem spaces_split {w : List Char} {c : Char} {rest : List Char}
    (hw : AllSpace w) (hc : pyIsSpace c = false) :
    (w ++ c :: rest).takeWhile pyIsSpace = w ∧
      (w ++ c :: rest).dropWhile pyIsSpace = c :: rest :=
  takeDrop_split hw hc

theorem takeExactDigits_sound : ∀ {n : Nat} {cs ds rest : List Char},
    takeExactDigits n cs = some (ds, rest) →
    cs = ds ++ rest ∧ ds.length = n ∧ AllDigit ds := by
  intro n
  induction n with
  | zero =>
    intro cs ds rest h
    simp only [takeExactDigits, Option.some.injEq, Prod.mk.injEq] at h
    obtain ⟨rfl, rfl⟩ := h
    exact ⟨rfl, rfl, fun c hc => absurd hc (List.not_mem_nil c)⟩
  | succ n ih =>
    intro cs ds rest h
    cases cs with
    | nil => simp [takeExactDigits] at h
    | cons c cs' =>
      simp only [takeExactDigits] at h
      by_cases hd : pyIsDigit c
      · rw [if_pos hd] at h
        cases h2 : takeExactDigits n cs' with
        | none => rw [h2] at h; cases h
        | some p =>
          obtain ⟨ds', rest'⟩ := p
          rw [h2] at h
          simp only [Option.some.injEq, Prod.mk.injEq] at h
          obtain ⟨h1, h2'⟩ := h
          subst h1; subst h2'
          obtain ⟨hcs, hlen, hdig⟩ := ih h2
          refine ⟨by rw [hcs]; rfl, by simp [hlen], ?_⟩
          intro x hx
          rcases List.mem_cons.mp hx with rfl | hx'
          · exact hd
          · exact hdig x hx'
      · rw [if_neg hd] at h; cases h

theorem takeExactDigits_complete (ds rest : List Char) (hd : AllDigit ds) :
    takeExactDigits ds.length (ds ++ rest) = some (ds, rest) := by
  induction ds with
  | nil => simp [takeExactDigits]
  | cons c ds ih =>
    have hc : pyIsDigit c = true := hd c (by simp)
    have ih' := ih (fun x hx => hd x (by simp [hx]))
    simp only [List.length_cons, List.cons_append, takeExactDigits, hc, if_true]
    rw [show ds.append rest = ds ++ rest from rfl, ih']

theorem takeSpaces1_sound {cs w rest : List Char}
    (h : takeSpaces1 cs = some (w, rest)) :
    cs = w ++ rest ∧ w ≠ [] ∧ AllSpace w := by
  unfold takeSpaces1 at h
  cases htw : cs.takeWhile pyIsSpace with
  | nil => rw [htw] at h; cases h
  | cons a t =>
    rw [htw] at h
    simp only [Option.some.injEq, Prod.mk.injEq] at h
    obtain ⟨hw, hrest⟩ := h
    subst hw; subst hrest
    refine ⟨?_, by simp, ?_⟩
    · rw [← htw]; exact (List.takeWhile_append_dropWhile pyIsSpace cs).symm
    · intro x hx
      exact List.mem_takeWhile_imp (htw ▸ hx)

theorem takeSpaces1_complete {w : List Char} {c : Char} {rest : List Char}
    (hne : w ≠ []) (hw : AllSpace w) (hc : pyIsSpace c = false) :
    takeSpaces1 (w ++ c :: rest) = some (w, c :: rest) := by
  obtain ⟨tw, td⟩ := spaces_split hw hc
  cases w with
  | nil => exact absurd rfl hne
  | cons a w' => unfold takeSpaces1; rw [tw, td]

theorem matchReportLine_sound {line g : List Char}
    (h : matchReportLine line = some g) : SpecGroup line g := by
  unfold matchReportLine at h
  cases h1 : takeExactDigits 1 (line.dropWhile pyIsSpace) with
  | none => rw [h1] at h; cases h
  | some p1 =>
  obtain ⟨d1, r1⟩ := p1
  rw [h1] at h
  simp only [Option.bind_eq_bind, Option.some_bind] at h
  cases h2 : takeSpaces1 r1 with
  | none => rw [h2] at h; cases h
  | some p2 =>
  obtain ⟨w1, r2⟩ := p2
  rw [h2] at h
  simp only [Option.some_bind] at h
  cases h3 : takeExactDigits 5 r2 with
  | none => rw [h3] at h; cases h
  | some p3 =>
  obtain ⟨d2, r3⟩ := p3
  rw [h3] at h
  simp only [Option.some_bind] at h
  cases h4 : takeSpaces1 r3 with
  | none => rw [h4] at h; cases h
  | some p4 =>
  obtain ⟨w2, r4⟩ := p4
  rw [h4] at h
  simp only [Option.some_bind] at h
  cases h5 : takeExactDigits 5 r4 with
  | none => rw [h5] at h; cases h
  | some p5 =>
  obtain ⟨d3, r5⟩ := p5
  rw [h5] at h
  simp only [Option.some_bind] at h
  cases h6 : takeSpaces1 r5 with
  | none => rw [h6] at h; cases h
  | some p6 =>
  obtain ⟨w3, r6⟩ := p6
  rw [h6] at h
  simp only [Option.some_bind] at h
  cases h7 : takeExactDigits 1 r6 with
  | none => rw [h7] at h; cases h
  | some p7 =>
  obtain ⟨d4, r7⟩ := p7
  rw [h7] at h
  simp only [Option.some_bind] at h
  cases h8 : takeSpaces1 r7 with
  | none => rw [h8] at h; cases h
  | some p8 =>
  obtain ⟨w4, r8⟩ := p8
  rw [h8] at h
  simp only [Option.some_bind] at h
  cases r8 with
  | nil => cases h
  | cons c rest =>
  replace h : (if c = 'P' then some (d1 ++ w1 ++ d2 ++ w2 ++ d3 ++ w3 ++ d4) else none)
      = some g := h
  by_cases hc : c = 'P'
  · rw [if_pos hc] at h
    subst hc
    obtain ⟨e1, hd1len, hd1⟩ := takeExactDigits_sound h1
    obtain ⟨e2, hw1ne, hw1⟩ := takeSpaces1_sound h2
    obtain ⟨e3, hd2len, hd2⟩ := takeExactDigits_sound h3
    obtain ⟨e4, hw2ne, hw2⟩ := takeSpaces1_sound h4
    obtain ⟨e5, hd3len, hd3⟩ := takeExactDigits_sound h5
    obtain ⟨e6, hw3ne, hw3⟩ := takeSpaces1_sound h6
    obtain ⟨e7, hd4len, hd4⟩ := takeExactDigits_sound h7
    obtain ⟨e8, hw4ne, hw4⟩ := takeSpaces1_sound h8
    refine ⟨line.takeWhile pyIsSpace, d1, w1, d2, w2, d3, w3, d4, w4, rest,
      ?_, fun x hx => List.mem_takeWhile_imp hx,
      hd1len, hd1, hw1ne, hw1, hd2len, hd2, hw2ne, hw2,
      hd3len, hd3, hw3ne, hw3, hd4len, hd4, hw4ne, hw4, ?_⟩
    · conv_lhs => rw [← List.takeWhile_append_dropWhile pyIsSpace line]
      rw [e1, e2, e3, e4, e5, e6, e7, e8]
    · injection h with h
      rw [← h]
      simp [List.append_assoc]
  · rw [if_neg hc] at h; cases h

theorem matchReportLine_complete {line g : List Char}
    (hs : SpecGroup line g) : matchReportLine line = some g := by
  obtain ⟨w0, d1, w1, d2, w2, d3, w3, d4, w4, rest, hline, hw0,
    hd1len, hd1, hw1ne, hw1, hd2len, hd2, hw2ne, hw2,
    hd3len, hd3, hw3ne, hw3, hd4len, hd4, hw4ne, hw4, hg⟩ := hs
  obtain ⟨c1, rfl⟩ := List.length_eq_one.mp hd1len
  obtain ⟨c4, rfl⟩ := List.length_eq_one.mp hd4len
  obtain ⟨a2, t2, rfl⟩ := List.exists_cons_of_ne_nil
    (List.ne_nil_of_length_pos (by rw [hd2len]; omega))
  obtain ⟨a3, t3, rfl⟩ := List.exists_cons_of_ne_nil
    (List.ne_nil_of_length_pos (by rw [hd3len]; omega))
  subst hline hg
  have hc1 : pyIsDigit c1 = true := hd1 c1 (by simp)
  have ha2 : pyIsDigit a2 = true := hd2 a2 (by simp)
  have ha3 : pyIsDigit a3 = true := hd3 a3 (by simp)
  have hc4 : pyIsDigit c4 = true := hd4 c4 (by simp)
  have hP : pyIsSpace 'P' = false := by decide
  have e0 : (w0 ++ c1 :: (w1 ++ a2 :: (t2 ++ (w2 ++ a3 :: (t3 ++ (w3 ++ c4 ::
      (w4 ++ 'P' :: rest))))))).dropWhile pyIsSpace
      = c1 :: (w1 ++ a2 :: (t2 ++ (w2 ++ a3 :: (t3 ++ (w3 ++ c4 :: (w4 ++ 'P' :: rest)))))) :=
    (spaces_split hw0 (pyIsDigit_not_space hc1)).2
  have e1 : takeExactDigits 1 (c1 :: (w1 ++ a2 :: (t2 ++ (w2 ++ a3 :: (t3 ++ (w3 ++ c4 ::
      (w4 ++ 'P' :: rest)))))))
      = some ([c1], w1 ++ a2 :: (t2 ++ (w2 ++ a3 :: (t3 ++ (w3 ++ c4 :: (w4 ++ 'P' :: rest)))))) :=
    takeExactDigits_complete [c1] _ hd1
  have e2 : takeSpaces1 (w1 ++ a2 :: (t2 ++ (w2 ++ a3 :: (t3 ++ (w3 ++ c4 :: (w4 ++ 'P' :: rest))))))
      = some (w1, a2 :: (t2 ++ (w2 ++ a3 :: (t3 ++ (w3 ++ c4 :: (w4 ++ 'P' :: rest)))))) :=
    takeSpaces1_complete hw1ne hw1 (pyIsDigit_not_space ha2)
  have e3 : takeExactDigits ((a2 :: t2).length) (a2 :: (t2 ++ (w2 ++ a3 :: (t3 ++ (w3 ++ c4 ::
      (w4 ++ 'P' :: rest))))))
      = some (a2 :: t2, w2 ++ a3 :: (t3 ++ (w3 ++ c4 :: (w4 ++ 'P' :: rest)))) :=
    takeExactDigits_complete (a2 :: t2) _ hd2
  rw [hd2len] at e3
  have e4 : takeSpaces1 (w2 ++ a3 :: (t3 ++ (w3 ++ c4 :: (w4 ++ 'P' :: rest))))
      = some (w2, a3 :: (t3 ++ (w3 ++ c4 :: (w4 ++ 'P' :: rest)))) :=
    takeSpaces1_complete hw2ne hw2 (pyIsDigit_not_space ha3)
  have e5 : takeExactDigits ((a3 :: t3).length) (a3 :: (t3 ++ (w3 ++ c4 :: (w4 ++ 'P' :: rest))))
      = some (a3 :: t3, w3 ++ c4 :: (w4 ++ 'P' :: rest)) :=
    takeExactDigits_complete (a3 :: t3) _ hd3
  rw [hd3len] at e5
  have e6 : takeSpaces1 (w3 ++ c4 :: (w4 ++ 'P' :: rest))
      = some (w3, c4 :: (w4 ++ 'P' :: rest)) :=
    takeSpaces1_complete hw3ne hw3 (pyIsDigit_not_space hc4)
  have e7 : takeExactDigits 1 (c4 :: (w4 ++ 'P' :: rest))
      = some ([c4], w4 ++ 'P' :: rest) :=
    takeExactDigits_complete [c4] _ hd4
  have e8 : takeSpaces1 (w4 ++ 'P' :: rest) = some (w4, 'P' :: rest) :=
    takeSpaces1_complete hw4ne hw4 hP
  show matchReportLine (w0 ++ c1 :: (w1 ++ a2 :: (t2 ++ (w2 ++ a3 :: (t3 ++ (w3 ++ c4 ::
      (w4 ++ 'P' :: rest)))))))
      = some (c1 :: (w1 ++ a2 :: (t2 ++ (w2 ++ a3 :: (t3 ++ (w3 ++ [c4]))))))
  unfold matchReportLine
  rw [e0, e1]
  simp only [Option.bind_eq_bind, Option.some_bind]
  rw [e2]
  simp only [Option.some_bind]
  rw [e3]
  simp only [Option.some_bind]
  rw [e4]
  simp only [Option.some_bind]
  rw [e5]
  simp only [Option.some_bind]
  rw [e6]
  simp only [Option.some_bind]
  rw [e7]
  simp only [Option.some_bind]
  rw [e8]
  simp only [Option.some_bind]
  simp [List.cons_append, List.append_assoc]

theorem extractLine_iff {line code : List Char} :
    extractLine line = some code
      ↔ ∃ g, SpecGroup line g ∧ code = g.filter (fun c => c ≠ ' ') := by
  constructor
  · intro h
    unfold extractLine at h
    cases hm : matchReportLine line with
    | none => rw [hm] at h; cases h
    | some g =>
      rw [hm] at h
      replace h : some (g.filter (fun c => c ≠ ' ')) = some code := h
      exact ⟨g, matchReportLine_sound hm, (Option.some.inj h).symm⟩
  · rintro ⟨g, hs, rfl⟩
    unfold extractLine
    rw [matchReportLine_complete hs]
    rfl

theorem extractSpec_filterMap (ls : List (List Char)) :
    ExtractSpec ls (ls.filterMap extractLine) := by
  induction ls with
  | nil => exact ExtractSpec.nil
  | cons l ls ih =>
    cases he : extractLine l with
    | none =>
      rw [List.filterMap_cons_none he]
      refine ExtractSpec.skipped (fun g hg => ?_) ih
      rw [extractLine_iff.mpr ⟨g, hg, rfl⟩] at he
      cases he
    | some code =>
      rw [List.filterMap_cons_some he]
      obtain ⟨g, hg, rfl⟩ := extractLine_iff.mp he
      exact ExtractSpec.matched hg ih

theorem extractSpec_unique {ls cs : List (List Char)} (h : ExtractSpec ls cs) :
    cs = ls.filterMap extractLine := by
  induction h with
  | nil => simp
  | @matched line g ls' cs' hg _ ih =>
    rw [List.filterMap_cons_some (extractLine_iff.mpr ⟨g, hg, rfl⟩), ih]
  | @skipped line ls' cs' hn _ ih =>
    cases he : extractLine line with
    | none => rw [List.filterMap_cons_none he]; exact ih
    | some code =>
      obtain ⟨g, hg, _⟩ := extractLine_iff.mp he
      exact absurd hg (hn g)

/-! ### Claim theorems: the Record Extractor -/

/-- C1 (amended): for every input text, `process_email_text` returns one
record per line matching the pattern (optional leading whitespace, digit
groups of lengths 1, 5, 5, 1 separated by whitespace, then whitespace and
the literal `P`), in input-line order, non-matching lines contributing
nothing, and empty input yielding the empty sequence; each record's code
is the matched span from the first to the last digit with internal
*space characters* removed (other whitespace separators, such as tabs,
are retained — the source uses `.replace(' ', '')`). -/
theorem extractor_meets_line_spec (text : String) :
    ExtractSpec (splitOnNl (pyStripL text.toList)) (extractAll text.toList)
    ∧ (∀ cs, ExtractSpec (splitOnNl (pyStripL text.toList)) cs → cs = extractAll text.toList)
    ∧ process_email_text text = (extractAll text.toList).map List.asString
    ∧ process_email_text "" = [] :=
  ⟨extractSpec_filterMap _, fun _ h => extractSpec_unique h, rfl, by decide⟩

/-- C1 counterexample: on a tab-separated matching line the produced code
keeps the tabs, so it is not the four digit groups concatenated with all
internal whitespace removed. -/
theorem extractor_keeps_tabs :
    process_email_text "1\t12345\t12345\t6 P" = ["1\t12345\t12345\t6"]
    ∧ process_email_text "1\t12345\t12345\t6 P" ≠ ["112345123456"] := by
  constructor
  · decide
  · decide

/-- C2 counterexample: the spec's worked examples give 7-character codes,
but the code of a matching line is the full 12-digit concatenation of the
groups (1+5+5+1 digits), so both example outputs are wrong. -/
theorem worked_examples_wrong :
    process_email_text "1 12345 12345 6 P extra" ≠ ["1123456"]
    ∧ process_email_text "0 12345 12345 6 P  ITEM\nnot a match\n1 00000 00001 2 P ITEM2\n"
      ≠ ["0123456", "1000012"] := by
  constructor
  · decide
  · decide

/-- C2 (amended): the line `"1 12345 12345 6 P extra"` matches and yields
code `"112345123456"`; a line whose second group has only 4 digits does
not match; and the example body yields exactly the codes
`"012345123456"` and `"100000000012"`, in that order. -/
theorem worked_examples_amended :
    process_email_text "1 12345 12345 6 P extra" = ["112345123456"]
    ∧ process_email_text "1 1234 12345 6 P" = []
    ∧ process_email_text "0 12345 12345 6 P  ITEM\nnot a match\n1 00000 00001 2 P ITEM2\n"
      = ["012345123456", "100000000012"] := by
  refine ⟨by decide, by decide, by decide⟩

/-! ### Claim theorems: the Message Classifier -/

/-- C3: for every inbound message carrying a subject, `is_reply`
classifies it as Reply exactly when the subject begins with the literal
`"Re:"` or an `In-Reply-To` or `References` header is present (presence
alone suffices); otherwise it is Original (`false`). -/
theorem classifier_reply_iff (msg : EmailMessage) (s : String)
    (h : msg.subject = some s) :
    is_reply msg
      = .ok (pyStartsWith s "Re:" || msg.inReplyTo.isSome || msg.references.isSome) := by
  unfold is_reply
  rw [h]
  by_cases hp : pyStartsWith s "Re:"
  · simp [hp]
  · simp [hp]

/-- C3 witness: a concrete subject-bearing message evaluated through
`classifier_reply_iff`. -/
theorem classifier_reply_iff_witness :
    is_reply ⟨some "Re: weekly report", none, none, false, [], some ""⟩
      = .ok (pyStartsWith "Re: weekly report" "Re:"
          || (none : Option String).isSome || (none : Option String).isSome) :=
  classifier_reply_iff ⟨some "Re: weekly report", none, none, false, [], some ""⟩
    "Re: weekly report" rfl

/-- C10: when the Subject header is absent, `is_reply` raises an
`AttributeError` at the subject-prefix test instead of falling back to
the thread-reference headers, whatever those headers hold. -/
theorem classifier_raises_without_subject (msg : EmailMessage)
    (h : msg.subject = none) :
    is_reply msg = .error .attributeError := by
  unfold is_reply
  rw [h]

/-- C10 witness: a subject-less message with both thread headers present
still raises. -/
theorem classifier_raises_without_subject_witness :
    is_reply ⟨none, some "<msg-id>", some "<refs>", false, [], some ""⟩
      = .error .attributeError :=
  classifier_raises_without_subject
    ⟨none, some "<msg-id>", some "<refs>", false, [], some ""⟩ rfl

/-! ### Claim theorems: extract_filename -/

theorem findBracket_no_bracket {cs : List Char} (h : ∀ c ∈ cs, c ≠ '[') :
    findBracket cs = none := by
  induction cs with
  | nil => rfl
  | cons c rest ih =>
    unfold findBracket
    rw [if_neg (h c (by simp))]
    exact ih fun x hx => h x (by simp [hx])

theorem bracketGroup_exact {I post : List Char} (hne : I ≠ [])
    (hnb : ∀ c ∈ I, c ≠ ']') :
    bracketGroup (I ++ ']' :: post) = some I := by
  have hw : ∀ x ∈ I, (fun c => (decide (c ≠ ']') : Bool)) x = true := by
    intro x hx
    simpa using hnb x hx
  have hc : (fun c => (decide (c ≠ ']') : Bool)) ']' = false := by simp
  obtain ⟨tw, td⟩ := takeDrop_split hw hc
  unfold bracketGroup
  rw [td, tw]
  cases I with
  | nil => exact absurd rfl hne
  | cons a I' => rfl

theorem findBracket_round {pre I post : List Char}
    (hpre : ∀ c ∈ pre, c ≠ '[') (hne : I ≠ []) (hnb : ∀ c ∈ I, c ≠ ']') :
    findBracket (pre ++ '[' :: (I ++ ']' :: post)) = some I := by
  induction pre with
  | nil =>
    show findBracket ('[' :: (I ++ ']' :: post)) = some I
    unfold findBracket
    rw [if_pos rfl, bracketGroup_exact hne hnb]
  | cons c pre' ih =>
    show findBracket (c :: (pre' ++ '[' :: (I ++ ']' :: post))) = some I
    unfold findBracket
    rw [if_neg (hpre c (by simp))]
    exact ih fun x hx => hpre x (by simp [hx])

theorem bracketGroup_sound {cs g : List Char} (h : bracketGroup cs = some g) :
    ∃ post, cs = g ++ ']' :: post ∧ g ≠ [] ∧ ∀ c ∈ g, c ≠ ']' := by
  unfold bracketGroup at h
  split at h
  · rename_i tail heqd
    split at h
    · cases h
    · rename_i hne0
      obtain rfl := Option.some.inj h
      refine ⟨tail, ?_, ?_, ?_⟩
      · rw [← heqd]
        exact (List.takeWhile_append_dropWhile _ cs).symm
      · intro hcon
        exact hne0 hcon
      · intro c hc
        have := List.mem_takeWhile_imp hc
        simpa using this
  · cases h

theorem findBracket_sound {cs g : List Char} (h : findBracket cs = some g) :
    ∃ pre post, cs = pre ++ '[' :: (g ++ ']' :: post) ∧ g ≠ [] ∧ ∀ c ∈ g, c ≠ ']' := by
  induction cs with
  | nil => cases h
  | cons c rest ih =>
    unfold findBracket at h
    by_cases hc : c = '['
    · rw [if_pos hc] at h
      subst hc
      cases hb : bracketGroup rest with
      | some g' =>
        rw [hb] at h
        replace h : some g' = some g := h
        obtain rfl := Option.some.inj h
        obtain ⟨post, hrest, hne, hnb⟩ := bracketGroup_sound hb
        exact ⟨[], post, by rw [hrest]; rfl, hne, hnb⟩
      | none =>
        rw [hb] at h
        replace h : findBracket rest = some g := h
        obtain ⟨pre, post, hrest, hne, hnb⟩ := ih h
        exact ⟨'[' :: pre, post, by rw [hrest]; rfl, hne, hnb⟩
    · rw [if_neg hc] at h
      obtain ⟨pre, post, hrest, hne, hnb⟩ := ih h
      exact ⟨c :: pre, post, by rw [hrest]; rfl, hne, hnb⟩

/-- A subject contains a bracketed span in the sense of the regex
`\[([^\]]+)\]`: somewhere a `[`, then at least one non-`]` character,
then `]`. -/
def HasBracketSpan (subj : String) : Prop :=
  ∃ pre I post : List Char,
    subj.toList = pre ++ '[' :: (I ++ ']' :: post) ∧ I ≠ [] ∧ ∀ c ∈ I, c ≠ ']'

/-- C4: round-trip of the artifact identifier: `extract_filename` applied
to any subject of shape `pre ++ "[" ++ I ++ "]" ++ post` whose first
bracketed span is `[I]` (no `[` in `pre`, `I` nonempty and `]`-free)
returns exactly `I`; in particular it recovers the builder's identifier
`nordsvcp_<digits>.csv` from the generated notification subject; a
subject containing no bracketed span yields no identifier. -/
theorem filename_round_trip (pre I post ts : String)
    (hpre : ∀ c ∈ pre.toList, c ≠ '[')
    (hne : I.toList ≠ [])
    (hnb : ∀ c ∈ I.toList, c ≠ ']') :
    extract_filename (pre ++ "[" ++ I ++ "]" ++ post) = some I
    ∧ ((∀ c ∈ ts.toList, pyIsDigit c = true) →
        extract_filename (outgoing_subject (unique_filename ts))
          = some (unique_filename ts))
    ∧ (∀ subj : String, ¬ HasBracketSpan subj → extract_filename subj = none) := by
  refine ⟨?_, ?_, ?_⟩
  · have key : (pre ++ "[" ++ I ++ "]" ++ post).toList
        = pre.toList ++ '[' :: (I.toList ++ ']' :: post.toList) := by
      have h1 : "[".data = ['['] := rfl
      have h2 : "]".data = [']'] := rfl
      simp [String.data_append, h1, h2]
    unfold extract_filename
    rw [key, findBracket_round hpre hne hnb, Option.map_some']
    rw [String.asString_toList]
  · intro hts
    have hfn : (unique_filename ts).toList
        = "nordsvcp_".toList ++ (ts.toList ++ ".csv".toList) := by
      simp [unique_filename, String.data_append]
    have key : (outgoing_subject (unique_filename ts)).toList
        = "DSVNord Closeout Approval: ".toList
            ++ '[' :: ((unique_filename ts).toList ++ ']' :: ([] : List Char)) := by
      have h1 : "DSVNord Closeout Approval: [".data
          = "DSVNord Closeout Approval: ".data ++ ['['] := by decide
      have h2 : "]".data = [']'] := rfl
      simp [outgoing_subject, String.data_append, h1, h2]
    have hne' : (unique_filename ts).toList ≠ [] := by
      intro hcon
      have := congrArg List.length hcon
      rw [hfn] at this
      simp [List.length_append] at this
    have hnb' : ∀ c ∈ (unique_filename ts).toList, c ≠ ']' := by
      intro c hc
      rw [hfn] at hc
      simp only [List.mem_append] at hc
      rcases hc with hc | hc | hc
      · have hall : ∀ x ∈ "nordsvcp_".toList, x ≠ ']' := by decide
        exact hall c hc
      · intro hcon
        subst hcon
        have := hts _ hc
        exact absurd this (by decide)
      · have hall : ∀ x ∈ ".csv".toList, x ≠ ']' := by decide
        exact hall c hc
    have hpre' : ∀ c ∈ "DSVNord Closeout Approval: ".toList, c ≠ '[' := by decide
    unfold extract_filename
    rw [key, findBracket_round hpre' hne' hnb', Option.map_some']
    rw [String.asString_toList]
  · intro subj hns
    cases hf : extract_filename subj with
    | none => rfl
    | some f =>
      exfalso
      unfold extract_filename at hf
      cases hb : findBracket subj.toList with
      | none => rw [hb] at hf; cases hf
      | some g =>
        obtain ⟨gpre, gpost, hdecomp, hgne, hgnb⟩ := findBracket_sound hb
        exact hns ⟨gpre, g, gpost, hdecomp, hgne, hgnb⟩

/-- C4 witness: concrete round-trip through `filename_round_trip` at a
reply subject embedding a generated identifier. -/
theorem filename_round_trip_witness :
    (∀ c ∈ "Re: DSVNord Closeout Approval: ".toList, c ≠ '[')
    ∧ "nordsvcp_20240101120000.csv".toList ≠ []
    ∧ (∀ c ∈ "nordsvcp_20240101120000.csv".toList, c ≠ ']')
    ∧ (extract_filename ("Re: DSVNord Closeout Approval: " ++ "[" ++
          "nordsvcp_20240101120000.csv" ++ "]" ++ " (EOM)")
        = some "nordsvcp_20240101120000.csv"
      ∧ ((∀ c ∈ "20240101120000".toList, pyIsDigit c = true) →
          extract_filename (outgoing_subject (unique_filename "20240101120000"))
            = some (unique_filename "20240101120000"))
      ∧ (∀ subj : String, ¬ HasBracketSpan subj → extract_filename subj = none)) :=
  ⟨by decide, by decide, by decide,
    filename_round_trip "Re: DSVNord Closeout Approval: " "nordsvcp_20240101120000.csv"
      " (EOM)" "20240101120000" (by decide) (by decide) (by decide)⟩

/-! ### Claim theorems: the Artifact Builder -/

/-- The Artifact Builder step of the Original branch (`src/main.py` lines
219-221): filename from the timestamp, file content from the data. -/
def buildArtifact (data : List String) (timestamp : String) : String × String :=
  (unique_filename timestamp, write_to_csv_content data)

/-- The common line list underlying both CSV renderings: the header fields
and one row per code, without line terminators. -/
def csvLines (data : List String) : List String :=
  "SKU,UPC,EAN,QUANTITY_AVAILABLE,STATUS"
    :: data.map (fun code => code ++ "," ++ code ++ ",,0,discontinued")

/-- Rendering of a line list where every line is closed by `term`. -/
def renderLines (term : String) (lines : List String) : String :=
  lines.foldr (fun l acc => l ++ term ++ acc) ""

theorem foldl_append_eq (f : String → String) (l : List String) :
    ∀ acc : String,
      l.foldl (fun a x => a ++ f x) acc = acc ++ (l.map f).foldr (· ++ ·) "" := by
  induction l with
  | nil => intro acc; simp [String.append_empty]
  | cons x l ih =>
    intro acc
    simp only [List.foldl_cons, List.map_cons, List.foldr_cons]
    rw [ih (acc ++ f x), String.append_assoc]

/-- C5: the persisted artifact file is exactly the header line
`SKU,UPC,EAN,QUANTITY_AVAILABLE,STATUS,` followed by one line
`<code>,<code>,,0,discontinued,` per code, in order; and the content of
the built artifact is a pure function of the codes — only the filename
depends on the timestamp. -/
theorem csv_file_content_spec (data : List String) :
    write_to_csv_content data
      = "SKU,UPC,EAN,QUANTITY_AVAILABLE,STATUS,\n"
          ++ (data.map (fun code => code ++ "," ++ code ++ ",,0,discontinued,\n")).foldr
              (· ++ ·) ""
    ∧ ∀ t1 t2 : String, (buildArtifact data t1).2 = (buildArtifact data t2).2 := by
  constructor
  · unfold write_to_csv_content
    rw [foldl_append_eq (fun item => item ++ "," ++ item ++ ",,0,discontinued,\n") data]
  · intro t1 t2
    rfl

theorem file_rows_eq (data : List String) :
    (data.map (fun x => x ++ "," ++ x ++ ",,0,discontinued,\n")).foldr (· ++ ·) ""
      = (data.map (fun x => x ++ "," ++ x ++ ",,0,discontinued")).foldr
          (fun l acc => l ++ ",\n" ++ acc) "" := by
  induction data with
  | nil => rfl
  | cons x l ih =>
    simp only [List.map_cons, List.foldr_cons]
    rw [ih]
    have h : (",,0,discontinued" ++ ",\n" : String) = ",,0,discontinued,\n" := rfl
    conv_rhs => rw [String.append_assoc (x ++ "," ++ x) ",,0,discontinued" ",\n", h]

theorem email_rows_eq (data : List String) :
    (data.map (fun x => x ++ "," ++ x ++ ",,0,discontinued\n")).foldr (· ++ ·) ""
      = (data.map (fun x => x ++ "," ++ x ++ ",,0,discontinued")).foldr
          (fun l acc => l ++ "\n" ++ acc) "" := by
  induction data with
  | nil => rfl
  | cons x l ih =>
    simp only [List.map_cons, List.foldr_cons]
    rw [ih]
    have h : (",,0,discontinued" ++ "\n" : String) = ",,0,discontinued\n" := rfl
    conv_rhs => rw [String.append_assoc (x ++ "," ++ x) ",,0,discontinued" "\n", h]

/-- C6 (amended): the outbound email body embeds, in full, a CSV that
renders the same line list (same header fields, same codes in the same
order) as the persisted CSV, the only difference being that the persisted
rendering closes every line with `,\n` while the embedded one closes it
with `\n` (no trailing comma). -/
theorem email_embeds_commaless_csv (data : List String) :
    write_to_csv_content data = renderLines ",\n" (csvLines data)
    ∧ email_csv_data data = renderLines "\n" (csvLines data)
    ∧ ∀ fn, outgoing_body fn (email_csv_data data)
        = ("Filename: " ++ fn ++ "\nhas been received.\nDoes this look correct?\n\n")
            ++ email_csv_data data := by
  refine ⟨?_, ?_, ?_⟩
  · unfold write_to_csv_content renderLines csvLines
    simp only [List.foldr_cons]
    rw [foldl_append_eq (fun item => item ++ "," ++ item ++ ",,0,discontinued,\n") data,
      file_rows_eq data]
    have hh : ("SKU,UPC,EAN,QUANTITY_AVAILABLE,STATUS" ++ ",\n" : String)
        = "SKU,UPC,EAN,QUANTITY_AVAILABLE,STATUS,\n" := rfl
    conv_rhs => rw [hh]
  · unfold email_csv_data renderLines csvLines
    simp only [List.foldr_cons]
    rw [foldl_append_eq (fun item => item ++ "," ++ item ++ ",,0,discontinued\n") data,
      email_rows_eq data]
    have hh : ("SKU,UPC,EAN,QUANTITY_AVAILABLE,STATUS" ++ "\n" : String)
        = "SKU,UPC,EAN,QUANTITY_AVAILABLE,STATUS\n" := rfl
    conv_rhs => rw [hh]
  · intro fn
    simp [outgoing_body, String.append_assoc]

/-- C6 counterexample: the CSV text embedded in the outbound body does not
equal the persisted CSV — already the headers differ (no trailing comma
in the email rendering). -/
theorem email_csv_differs_from_file :
    email_csv_data ["112345123456"] ≠ write_to_csv_content ["112345123456"]
    ∧ email_csv_data [] ≠ write_to_csv_content [] := by
  exact ⟨by decide, by decide⟩

/-! ### Claim theorems: the Workflow Coordinator -/

/-- A sample configuration for concrete coordinator runs. -/
def cfgEx : Config := ⟨"/files/", "/remote/"⟩

/-- A reply message referencing a generated artifact identifier. -/
def replyMsgEx : EmailMessage :=
  ⟨some "Re: DSVNord Closeout Approval: [nordsvcp_20240101120000.csv]",
    none, none, false, [], some ""⟩

/-- A reply message with no bracketed reference in its subject. -/
def replyNoRefEx : EmailMessage :=
  ⟨some "Re: looks good to me", none, none, false, [], some ""⟩

/-- An original (non-reply) single-part message with one report line. -/
def origMsgEx : EmailMessage :=
  ⟨some "Inventory report", none, none, false, [], some "0 12345 12345 6 P  ITEM"⟩

/-- An original multipart message whose only part is a PDF attachment, so
no suitable text part exists. -/
def noTextMsgEx : EmailMessage :=
  ⟨some "Inventory report", none, none, true,
    [⟨"application/pdf", "attachment; filename=report.pdf", some "%PDF"⟩], none⟩

/-- An original message whose body matches zero report lines. -/
def zeroRecMsgEx : EmailMessage :=
  ⟨some "Status update", none, none, false, [], some "hello"⟩

/-- C7: evaluation of the coordinator at reply messages: the reply branch
completes without error but never emits the mark-processed (`\Seen`)
effect — neither when an identifier is found (only the upload happens)
nor in the no-reference no-op branch — contradicting the claim that every
branch marks the message processed. -/
theorem reply_branch_never_marks_seen :
    process_message cfgEx replyMsgEx "20240102130000" true true true
      = ([.sftpUpload "/files/nordsvcp_20240101120000.csv" "/remote/" true], none)
    ∧ Effect.markSeen
        ∉ (process_message cfgEx replyMsgEx "20240102130000" true true true).1
    ∧ process_message cfgEx replyNoRefEx "20240102130000" true true true = ([], none)
    ∧ Effect.markSeen
        ∈ (process_message cfgEx origMsgEx "20240102130000" true true true).1 := by
  refine ⟨by decide, by decide, by decide, by decide⟩

/-- C8 counterexample: when the file write raises, the original branch
aborts before the mark-processed step — marking is not even attempted and
the exception propagates to the run level. -/
theorem write_failure_prevents_marking :
    process_message cfgEx origMsgEx "20240102130000" false true true
      = ([], some .ioError)
    ∧ Effect.markSeen
        ∉ (process_message cfgEx origMsgEx "20240102130000" false true true).1 := by
  exact ⟨by decide, by decide⟩

/-- C8 (amended): for an original message, a notification failure cannot
prevent marking — the message is marked seen *before* the send is
attempted, and a send failure is caught inside the send step (surfaced
only as a log, never as an exception) — whereas a persistence failure
raises before the marking step, so marking is not attempted and the
failure surfaces to the run level. -/
theorem marking_attempt_vs_failures (cfg : Config) (msg : EmailMessage)
    (body ts : String) (fOk sendOk : Bool)
    (hnr : is_reply msg = .ok false)
    (hbody : get_email_body msg = .ok body) :
    process_message cfg msg ts true fOk sendOk
      = ([.fileWrite (unique_filename ts)
            (write_to_csv_content (process_email_text body)),
          .markSeen,
          .sendMail (outgoing_subject (unique_filename ts))
            (outgoing_body (unique_filename ts)
              (email_csv_data (process_email_text body))) sendOk], none)
    ∧ process_message cfg msg ts false fOk sendOk = ([], some .ioError)
    ∧ Effect.markSeen ∉ (process_message cfg msg ts false fOk sendOk).1 := by
  refine ⟨?_, ?_, ?_⟩
  · simp only [process_message, hnr, hbody, if_true]
  · simp only [process_message, hnr, hbody]
    rfl
  · simp only [process_message, hnr, hbody]
    intro hmem
    simp at hmem

/-- C8 witness: `marking_attempt_vs_failures` evaluated at a concrete
original message. -/
theorem marking_attempt_vs_failures_witness :
    is_reply origMsgEx = .ok false
    ∧ get_email_body origMsgEx = .ok "0 12345 12345 6 P  ITEM"
    ∧ (process_message cfgEx origMsgEx "20240102130000" true true false
        = ([.fileWrite (unique_filename "20240102130000")
              (write_to_csv_content (process_email_text "0 12345 12345 6 P  ITEM")),
            .markSeen,
            .sendMail (outgoing_subject (unique_filename "20240102130000"))
              (outgoing_body (unique_filename "20240102130000")
                (email_csv_data (process_email_text "0 12345 12345 6 P  ITEM"))) false], none)
      ∧ process_message cfgEx origMsgEx "20240102130000" false true false
          = ([], some .ioError)
      ∧ Effect.markSeen
          ∉ (process_message cfgEx origMsgEx "20240102130000" false true false).1) :=
  ⟨by decide, by decide,
    marking_attempt_vs_failures cfgEx origMsgEx "0 12345 12345 6 P  ITEM"
      "20240102130000" true false (by decide) (by decide)⟩

/-- C9 counterexample: an original multipart message with no suitable text
part does not proceed with an empty record list — it raises, nothing
happens for it (no file, no mail), and the remaining messages of the
batch are dropped; the second message alone would have produced
effects. -/
theorem no_text_part_aborts_batch :
    fetch_emails_loop cfgEx
        [(noTextMsgEx, "20240102130000", true, true, true),
          (origMsgEx, "20240102130500", true, true, true)]
      = ([], some .attributeError)
    ∧ (fetch_emails_loop cfgEx [(origMsgEx, "20240102130500", true, true, true)]).1 ≠ [] := by
  exact ⟨by decide, by decide⟩

theorem loop_cons_ok {cfg : Config} {msg : EmailMessage} {ts : String}
    {wOk fOk sOk : Bool} {rest : List (EmailMessage × String × Bool × Bool × Bool)}
    {effs : List Effect}
    (h : process_message cfg msg ts wOk fOk sOk = (effs, none)) :
    fetch_emails_loop cfg ((msg, ts, wOk, fOk, sOk) :: rest)
      = (effs ++ (fetch_emails_loop cfg rest).1, (fetch_emails_loop cfg rest).2) := by
  have hstep : fetch_emails_loop cfg ((msg, ts, wOk, fOk, sOk) :: rest)
      = (match process_message cfg msg ts wOk fOk sOk with
        | (effs, some e) => (effs, some e)
        | (effs, none) =>
          match fetch_emails_loop cfg rest with
          | (effs2, err) => (effs ++ effs2, err)) := rfl
  rw [hstep, h]

theorem loop_cons_err {cfg : Config} {msg : EmailMessage} {ts : String}
    {wOk fOk sOk : Bool} {rest : List (EmailMessage × String × Bool × Bool × Bool)}
    {effs : List Effect} {e : PyError}
    (h : process_message cfg msg ts wOk fOk sOk = (effs, some e)) :
    fetch_emails_loop cfg ((msg, ts, wOk, fOk, sOk) :: rest) = (effs, some e) := by
  have hstep : fetch_emails_loop cfg ((msg, ts, wOk, fOk, sOk) :: rest)
      = (match process_message cfg msg ts wOk fOk sOk with
        | (effs, some e) => (effs, some e)
        | (effs, none) =>
          match fetch_emails_loop cfg rest with
          | (effs2, err) => (effs ++ effs2, err)) := rfl
  rw [hstep, h]

/-- C9 (amended): an original message whose decoded body matches zero
records is non-fatal — the Original branch proceeds with an empty record
list, writes and mails an empty CSV, and the batch continues with the
remaining messages; but an original multipart message with no suitable
text part raises while decoding, and that exception aborts the remaining
batch. -/
theorem zero_records_ok_no_text_part_fatal (cfg : Config) (msg bad : EmailMessage)
    (body ts : String) (fOk sOk : Bool)
    (rest : List (EmailMessage × String × Bool × Bool × Bool))
    (hnr : is_reply msg = .ok false)
    (hbody : get_email_body msg = .ok body)
    (hzero : process_email_text body = [])
    (hbadnr : is_reply bad = .ok false)
    (hbaderr : get_email_body bad = .error .attributeError) :
    process_message cfg msg ts true fOk sOk
      = ([.fileWrite (unique_filename ts) (write_to_csv_content []),
          .markSeen,
          .sendMail (outgoing_subject (unique_filename ts))
            (outgoing_body (unique_filename ts) (email_csv_data [])) sOk], none)
    ∧ fetch_emails_loop cfg ((msg, ts, true, fOk, sOk) :: rest)
        = ((process_message cfg msg ts true fOk sOk).1 ++ (fetch_emails_loop cfg rest).1,
            (fetch_emails_loop cfg rest).2)
    ∧ fetch_emails_loop cfg ((bad, ts, true, fOk, sOk) :: rest)
        = ([], some .attributeError) := by
  have hpm : process_message cfg msg ts true fOk sOk
      = ([.fileWrite (unique_filename ts) (write_to_csv_content []),
          .markSeen,
          .sendMail (outgoing_subject (unique_filename ts))
            (outgoing_body (unique_filename ts) (email_csv_data [])) sOk], none) := by
    simp only [process_message, hnr, hbody, hzero, if_true]
  have hbad : process_message cfg bad ts true fOk sOk = ([], some .attributeError) := by
    simp only [process_message, hbadnr, hbaderr]
  refine ⟨hpm, ?_, ?_⟩
  · rw [loop_cons_ok hpm, hpm]
  · exact loop_cons_err hbad

/-- C9 witness: `zero_records_ok_no_text_part_fatal` at a concrete
zero-record message and a concrete text-less multipart message. -/
theorem zero_records_ok_no_text_part_fatal_witness :
    is_reply zeroRecMsgEx = .ok false
    ∧ get_email_body zeroRecMsgEx = .ok "hello"
    ∧ process_email_text "hello" = []
    ∧ is_reply noTextMsgEx = .ok false
    ∧ get_email_body noTextMsgEx = .error .attributeError
    ∧ (process_message cfgEx zeroRecMsgEx "20240102130000" true true true
        = ([.fileWrite (unique_filename "20240102130000") (write_to_csv_content []),
            .markSeen,
            .sendMail (outgoing_subject (unique_filename "20240102130000"))
              (outgoing_body (unique_filename "20240102130000") (email_csv_data [])) true],
            none)
      ∧ fetch_emails_loop cfgEx
            ((zeroRecMsgEx, "20240102130000", true, true, true)
              :: [(origMsgEx, "20240102130500", true, true, true)])
          = ((process_message cfgEx zeroRecMsgEx "20240102130000" true true true).1
                ++ (fetch_emails_loop cfgEx [(origMsgEx, "20240102130500", true, true, true)]).1,
              (fetch_emails_loop cfgEx [(origMsgEx, "20240102130500", true, true, true)]).2)
      ∧ fetch_emails_loop cfgEx
            ((noTextMsgEx, "20240102130000", true, true, true)
              :: [(origMsgEx, "20240102130500", true, true, true)])
          = ([], some .attributeError)) :=
  ⟨by decide, by decide, by decide, by decide, by decide,
    zero_records_ok_no_text_part_fatal cfgEx zeroRecMsgEx noTextMsgEx "hello"
      "20240102130000" true true [(origMsgEx, "20240102130500", true, true, true)]
      (by decide) (by decide) (by decide) (by decide) (by decide)⟩

end NordCloseout
